import Mathlib

/-!
Verification of the crop_tiffs repository (src/cropping_tiff.py) against its
natural-language specification.  The Python functions `crop_3d_image`,
`save_tiff_correctly` and the per-file clamping step of `process_folder` are
shallowly embedded as executable Lean definitions; arrays are modelled as a
shape (list of dimension sizes) together with flat row-major data, and the
two `np.random.randint` draws are modelled by seed arguments reduced modulo
the draw's range, so that exactly the reachable offsets are covered.
-/

namespace CropTiffs

/-- The shape of a numpy array: the list of its dimension sizes. -/
abbrev Shape := List Nat

/-- `z_dim` as read by `crop_3d_image`: axis 0 of the shape. -/
def zDimOf (shape : Shape) : Nat := shape.headD 0

/-- `y_dim` as read by `crop_3d_image` and `process_folder`
(`image.shape[-2]`): the second-to-last axis. -/
def yDimOf (shape : Shape) : Nat := shape.getD (shape.length - 2) 0

/-- `x_dim` as read by `crop_3d_image` and `process_folder`
(`image.shape[-1]`): the last axis. -/
def xDimOf (shape : Shape) : Nat := shape.getD (shape.length - 1) 0

/-- Fully resolved crop bounds computed by `crop_3d_image`
(src/cropping_tiff.py lines 38-43): the centered Z window `[zStart, zEnd)`
and the random Y/X windows `[yStart, yStart+yLen)`, `[xStart, xStart+xLen)`. -/
structure CropBounds where
  zStart : Nat
  zEnd : Nat
  yStart : Nat
  yLen : Nat
  xStart : Nat
  xLen : Nat
deriving Repr, DecidableEq

/-- Shallow embedding of the validation and index computation of
`crop_3d_image` (src/cropping_tiff.py lines 21-43).

* Rank check: `image.ndim not in [3, 4]` raises `ValueError` (line 21).
* Size check: `y_dim < crop_height or x_dim < crop_width or z_dim < 10`
  raises `ValueError` (line 34); the depth bound 10 is hardcoded.
* `z_start = (z_dim - 10) // 2`, `z_end = z_start + 10` (lines 38-39).
* `y_start = np.random.randint(0, y_dim - crop_height + 1)` and the same
  for X (lines 42-43): `np.random.randint(0, hi)` draws uniformly from
  `[0, hi)`; the draw is modelled by a seed reduced `% hi`, which has the
  same support. -/
def crop_3d_image_plan (shape : Shape) (cropSize : Nat × Nat) (ry rx : Nat) :
    Except String CropBounds :=
  if shape.length = 3 ∨ shape.length = 4 then
    let cropHeight := cropSize.1
    let cropWidth := cropSize.2
    let zDim := zDimOf shape
    let yDim := yDimOf shape
    let xDim := xDimOf shape
    if yDim < cropHeight ∨ xDim < cropWidth ∨ zDim < 10 then
      Except.error "Crop size exceeds image dimensions or not enough Z slices."
    else
      let zStart := (zDim - 10) / 2
      Except.ok
        { zStart := zStart
          zEnd := zStart + 10
          yStart := ry % (yDim - cropHeight + 1)
          yLen := cropHeight
          xStart := rx % (xDim - cropWidth + 1)
          xLen := cropWidth }
  else
    Except.error "Unsupported image dimensions. Expected 3D or 4D."

/-- The per-file clamp of `process_folder` (src/cropping_tiff.py line 129):
`crop_height = min(max(300, crop_size[0]), image.shape[-2])`. -/
def effective_crop_height (shape : Shape) (reqHeight : Nat) : Nat :=
  min (max 300 reqHeight) (yDimOf shape)

/-- The per-file clamp of `process_folder` (src/cropping_tiff.py line 130):
`crop_width = min(max(300, crop_size[1]), image.shape[-1])`. -/
def effective_crop_width (shape : Shape) (reqWidth : Nat) : Nat :=
  min (max 300 reqWidth) (xDimOf shape)

/-- The spec's own formula for the effective crop size (sec. 4.1 step 3):
`clamp(max(min_floor, request.size), upper_bound = dim)`.  Stated from the
spec's words, to be compared with the code's clamp. -/
def effective_size_spec (minFloor reqSize dim : Nat) : Nat :=
  min (max minFloor reqSize) dim

/-- The structured content of the ImageJ description string built by
`save_tiff_correctly` (src/cropping_tiff.py lines 74-81): the format
template fixes `frames=1`, `hyperstack=true` and `mode=composite`, and
fills `images`, `channels` and `slices` from the (possibly expanded)
shape. -/
structure ImageJDescription where
  images : Nat
  channels : Nat
  slices : Nat
  frames : Nat
  hyperstack : Bool
  mode : String
deriving Repr, DecidableEq

/-- What `save_tiff_correctly` hands to `tifffile.imwrite`
(src/cropping_tiff.py lines 84-90): the output buffer (shape plus
unchanged flat pixel data), the photometric tag, the axes metadata string
and the ImageJ description. -/
structure SavedTiff where
  outShape : Shape
  outData : List Int
  photometric : String
  axes : String
  desc : ImageJDescription
deriving Repr, DecidableEq

/-- Shallow embedding of `save_tiff_correctly` (src/cropping_tiff.py lines
57-90), minus the filesystem write, which the spec treats as external.

* If `image.ndim == 4`, a singleton T axis is prepended and a singleton S
  axis appended via `np.expand_dims` (lines 68-71); inserting singleton
  axes leaves the flat row-major data unchanged.
* The description reads `image.shape[1]` and `image.shape[2]` of the
  possibly-expanded image (lines 77-79); on an image of rank below 3 that
  indexing raises `IndexError`, modelled as the error case.
* `photometric='minisblack'` and `metadata={'axes': 'TZCYXS'}` are passed
  unconditionally (lines 87-88); there is no rank check anywhere in the
  function. -/
def save_tiff_correctly (shape : Shape) (data : List Int) :
    Except String SavedTiff :=
  let shape2 := if shape.length = 4 then 1 :: (shape ++ [1]) else shape
  match shape2.get? 1, shape2.get? 2 with
  | some d1, some d2 =>
      Except.ok
        { outShape := shape2
          outData := data
          photometric := "minisblack"
          axes := "TZCYXS"
          desc :=
            { images := d1 * d2
              channels := d2
              slices := d1
              frames := 1
              hyperstack := true
              mode := "composite" } }
  | _, _ => Except.error "IndexError: tuple index out of range"

/-- An in-memory array: shape and flat row-major data. -/
structure Vol where
  shape : Shape
  data : List Int
deriving Repr, DecidableEq

/-- Row-major gather of the rank-3 slice
`image[z_start:z_end, y_start:y_start+h, x_start:x_start+w]`
(src/cropping_tiff.py line 49) from flat data with extents `ydim`, `xdim`
on the trailing axes. -/
def slice3 (data : List Int) (ydim xdim : Nat) (b : CropBounds) : List Int :=
  ((List.range (b.zEnd - b.zStart)).map fun z =>
    ((List.range b.yLen).map fun y =>
      (List.range b.xLen).map fun x =>
        data.getD (((b.zStart + z) * ydim + (b.yStart + y)) * xdim
          + (b.xStart + x)) 0).flatten).flatten

/-- Row-major gather of the rank-4 slice
`image[z_start:z_end, :, y_start:y_start+h, x_start:x_start+w]`
(src/cropping_tiff.py line 47): the channel axis is kept whole. -/
def slice4 (data : List Int) (cdim ydim xdim : Nat) (b : CropBounds) :
    List Int :=
  ((List.range (b.zEnd - b.zStart)).map fun z =>
    ((List.range cdim).map fun c =>
      ((List.range b.yLen).map fun y =>
        (List.range b.xLen).map fun x =>
          data.getD ((((b.zStart + z) * cdim + c) * ydim + (b.yStart + y))
            * xdim + (b.xStart + x)) 0).flatten).flatten).flatten

/-- The whole of `crop_3d_image` (src/cropping_tiff.py lines 9-51) over an
in-memory volume.  The heap cell holding the input array is threaded
explicitly: the result pairs the input array as the call leaves it with
the freshly built cropped array.  The source only reads `image` (numpy
basic slicing allocates no writes into its operand), so the input
component is returned as received. -/
def crop_3d_image_exec (v : Vol) (cropSize : Nat × Nat) (ry rx : Nat) :
    Except String (Vol × Vol) :=
  match crop_3d_image_plan v.shape cropSize ry rx with
  | Except.error e => Except.error e
  | Except.ok b =>
      if v.shape.length = 4 then
        let cdim := v.shape.getD 1 0
        Except.ok (v,
          { shape := [b.zEnd - b.zStart, cdim, b.yLen, b.xLen]
            data := slice4 v.data cdim (yDimOf v.shape) (xDimOf v.shape) b })
      else
        Except.ok (v,
          { shape := [b.zEnd - b.zStart, b.yLen, b.xLen]
            data := slice3 v.data (yDimOf v.shape) (xDimOf v.shape) b })

/-- Claim C1: whenever `crop_3d_image` succeeds on a rank-3 or rank-4
shape, for every value of the random offsets the returned bounds lie
inside the image: `y_start + y_len ≤ Y_dim`, `x_start + x_len ≤ X_dim`,
and the Z window (always computed, with the hardcoded depth 10) satisfies
`z_start + 10 ≤ Z_dim`.  Lower bounds `0 ≤ y_start` etc. hold because the
offsets are natural numbers. -/
theorem plan_bounds_within_dims (shape : Shape) (cropSize : Nat × Nat)
    (ry rx : Nat) (b : CropBounds)
    (hok : crop_3d_image_plan shape cropSize ry rx = Except.ok b) :
    b.yStart + b.yLen ≤ yDimOf shape ∧ b.xStart + b.xLen ≤ xDimOf shape ∧
    b.zStart + 10 ≤ zDimOf shape ∧ b.zEnd = b.zStart + 10 := by
  unfold crop_3d_image_plan at hok
  dsimp only at hok
  split at hok
  · split at hok
    · exact absurd hok (by simp)
    · rename_i hsz
      push_neg at hsz
      obtain ⟨hy, hx, hz⟩ := hsz
      injection hok with h
      subst h
      dsimp only
      have hymod : ry % (yDimOf shape - cropSize.1 + 1) < yDimOf shape - cropSize.1 + 1 :=
        Nat.mod_lt _ (by omega)
      have hxmod : rx % (xDimOf shape - cropSize.2 + 1) < xDimOf shape - cropSize.2 + 1 :=
        Nat.mod_lt _ (by omega)
      have hzdiv : (zDimOf shape - 10) / 2 ≤ zDimOf shape - 10 :=
        Nat.div_le_self _ _
      refine ⟨by omega, by omega, by omega, rfl⟩
  · exact absurd hok (by simp)

/-- Claim C1 witness: the bounds returned for shape `[12, 400, 400]`,
crop `(350, 300)` and seeds `5, 7` lie inside the image. -/
theorem plan_bounds_within_dims_witness :
    5 + 350 ≤ yDimOf [12, 400, 400] ∧ 7 + 300 ≤ xDimOf [12, 400, 400] ∧
    1 + 10 ≤ zDimOf [12, 400, 400] ∧ 11 = 1 + 10 :=
  plan_bounds_within_dims [12, 400, 400] (350, 300) 5 7
    ⟨1, 11, 5, 350, 7, 300⟩ rfl

/-- Claim C2: the effective crop height computed by `process_folder`
equals the spec's formula `min (max min_floor request.height) Y_dim` with
the code's hardcoded floor 300, symmetrically for the width; and when the
volume is smaller than the floor the size silently shrinks to the
volume's own extent: for `Y_dim = 250`, `request.height = 600` the
effective height is 250. -/
theorem effective_size_matches_spec :
    (∀ (shape : Shape) (h w : Nat),
      effective_crop_height shape h = effective_size_spec 300 h (yDimOf shape) ∧
      effective_crop_width shape w = effective_size_spec 300 w (xDimOf shape)) ∧
    effective_crop_height [12, 250, 260] 600 = 250 :=
  ⟨fun _ _ _ => ⟨rfl, rfl⟩, by decide⟩

/-- Claim C3: whenever `crop_3d_image` succeeds, the Z window is the
deterministic centered window of the hardcoded depth 10:
`z_start = (Z_dim - 10) / 2` and `z_end = z_start + 10`, so it holds
exactly 10 slices; for `Z_dim = 20` this gives `z_start = 5`,
`z_end = 15`. -/
theorem z_window_centered (shape : Shape) (cropSize : Nat × Nat)
    (ry rx : Nat) (b : CropBounds)
    (hok : crop_3d_image_plan shape cropSize ry rx = Except.ok b) :
    b.zStart = (zDimOf shape - 10) / 2 ∧ b.zEnd = b.zStart + 10 ∧
    (zDimOf shape = 20 → b.zStart = 5 ∧ b.zEnd = 15) := by
  unfold crop_3d_image_plan at hok
  dsimp only at hok
  split at hok
  · split at hok
    · exact absurd hok (by simp)
    · injection hok with h
      subst h
      dsimp only
      refine ⟨rfl, rfl, fun h20 => ?_⟩
      rw [h20]
      exact ⟨by decide, by decide⟩
  · exact absurd hok (by simp)

/-- Claim C3 witness: for shape `[20, 400, 400]` the centered Z window is
`[5, 15)`. -/
theorem z_window_centered_witness :
    (5 : Nat) = (zDimOf [20, 400, 400] - 10) / 2 ∧ (15 : Nat) = 5 + 10 ∧
    (zDimOf [20, 400, 400] = 20 → (5 : Nat) = 5 ∧ (15 : Nat) = 15) :=
  z_window_centered [20, 400, 400] (300, 300) 0 0
    ⟨5, 15, 0, 300, 0, 300⟩ rfl

/-- Claim C4 counterexample: the depth requirement is not an optional
mode.  No caller of `crop_3d_image` can leave the depth check out — the
bound 10 is hardcoded — yet on shape `[5, 400, 400]`, whose Y and X
extents fit the requested crop, the call fails because `Z_dim = 5 < 10`,
contradicting the claim that without a requested `min_z_depth` the
planner imposes no constraint on `Z_dim`. -/
theorem plan_depth_cex :
    ¬ (yDimOf [5, 400, 400] < 300) ∧ ¬ (xDimOf [5, 400, 400] < 300) ∧
    zDimOf [5, 400, 400] < 10 ∧
    crop_3d_image_plan [5, 400, 400] (300, 300) 0 0 =
      Except.error "Crop size exceeds image dimensions or not enough Z slices." :=
  ⟨by decide, by decide, by decide, rfl⟩

/-- Claim C4 amended: the depth check is unconditional with the hardcoded
bound 10.  For every rank-3 or rank-4 shape whose Y and X extents fit the
requested crop, `crop_3d_image` fails exactly when `Z_dim < 10`. -/
theorem plan_depth_check_unconditional (shape : Shape) (cropSize : Nat × Nat)
    (ry rx : Nat)
    (hrank : shape.length = 3 ∨ shape.length = 4)
    (hy : cropSize.1 ≤ yDimOf shape) (hx : cropSize.2 ≤ xDimOf shape) :
    (crop_3d_image_plan shape cropSize ry rx =
      Except.error "Crop size exceeds image dimensions or not enough Z slices.") ↔
      zDimOf shape < 10 := by
  unfold crop_3d_image_plan
  dsimp only
  rw [if_pos hrank]
  split
  · rename_i hsz
    have hz : zDimOf shape < 10 := by
      rcases hsz with h | h | h
      · omega
      · omega
      · exact h
    exact ⟨fun _ => hz, fun _ => rfl⟩
  · rename_i hsz
    push_neg at hsz
    exact ⟨fun h => absurd h (by simp), fun hz => absurd hz (by omega)⟩

/-- Claim C4 amended witness: on shape `[12, 400, 400]` with crop
`(350, 350)` the planner does not fail, matching `10 ≤ 12`. -/
theorem plan_depth_check_unconditional_witness :
    (crop_3d_image_plan [12, 400, 400] (350, 350) 0 0 =
      Except.error "Crop size exceeds image dimensions or not enough Z slices.") ↔
      zDimOf [12, 400, 400] < 10 :=
  plan_depth_check_unconditional [12, 400, 400] (350, 350) 0 0
    (Or.inl rfl) (by decide) (by decide)

/-- Claim C5 counterexample: on the spec's end-to-end input, shape
`(3, 3, 500, 500)` with request `(350, 350)`, the pipeline does not
succeed: the clamp yields the effective crop `(350, 350)`, but
`crop_3d_image` then raises because `Z_dim = 3 < 10`, so no cropped
array of shape `(3, 3, 350, 350)` is ever produced. -/
theorem end_to_end_cex :
    crop_3d_image_plan [3, 3, 500, 500]
      (effective_crop_height [3, 3, 500, 500] 350,
       effective_crop_width [3, 3, 500, 500] 350) 0 0 =
      Except.error "Crop size exceeds image dimensions or not enough Z slices." :=
  rfl

/-- Claim C5 amended: for input shape `(3, 3, 500, 500)`, request
`(350, 350)` and floor 300 the effective crop size is `(350, 350)`, but
the crop step fails for every random seed because the volume has only 3
leading slices and the hardcoded depth check requires at least 10; the
pipeline produces no output for this input. -/
theorem end_to_end_amended (ry rx : Nat) :
    effective_crop_height [3, 3, 500, 500] 350 = 350 ∧
    effective_crop_width [3, 3, 500, 500] 350 = 350 ∧
    crop_3d_image_plan [3, 3, 500, 500] (350, 350) ry rx =
      Except.error "Crop size exceeds image dimensions or not enough Z slices." :=
  ⟨rfl, rfl, rfl⟩

/-- Claim C6 counterexample: on the rank-3 volume of shape
`(12, 400, 400)` the writer attaches the axes string `"TZCYXS"` — the
`metadata` argument is the same for every rank — and not `"ZYX"` as the
claim states. -/
theorem writer_rank3_axes_cex :
    Except.map SavedTiff.axes
      (save_tiff_correctly [12, 400, 400] (List.replicate (12 * 400 * 400) 0)) =
      Except.ok "TZCYXS" ∧ "TZCYXS" ≠ "ZYX" :=
  ⟨rfl, by decide⟩

/-- Claim C6 amended: for every rank-3 volume the writer emits grayscale
(minisblack) photometric interpretation, but the axes metadata is the
unconditional `"TZCYXS"`, not `"ZYX"`. -/
theorem writer_rank3_metadata (Z Y X : Nat) (data : List Int) :
    Except.map (fun s => (s.photometric, s.axes))
      (save_tiff_correctly [Z, Y, X] data) =
      Except.ok ("minisblack", "TZCYXS") :=
  rfl

/-- Claim C7: for every rank-4 volume `(Z, C, Y, X)` the writer prepends
a size-1 T axis and appends a size-1 S axis, producing a rank-6 buffer of
shape `(1, Z, C, Y, X, 1)` with axes `"TZCYXS"` and the pixel payload
unchanged. -/
theorem writer_rank4_expands (Z C Y X : Nat) (data : List Int) :
    save_tiff_correctly [Z, C, Y, X] data =
      Except.ok
        { outShape := [1, Z, C, Y, X, 1]
          outData := data
          photometric := "minisblack"
          axes := "TZCYXS"
          desc :=
            { images := Z * C
              channels := C
              slices := Z
              frames := 1
              hyperstack := true
              mode := "composite" } } :=
  rfl

/-- Claim C8: for every rank-4 volume `(Z, C, Y, X)` the attached ImageJ
description reports `images = Z * C`, `channels = C`, `slices = Z`,
`frames = 1` and the composite-display hint, and attaching it leaves the
pixel data unchanged; for `(12, 3, 400, 400)` this gives `images = 36`,
`channels = 3`, `slices = 12`, `frames = 1`. -/
theorem writer_description_fields :
    (∀ (Z C Y X : Nat) (data : List Int),
      Except.map (fun s => (s.desc, s.outData))
        (save_tiff_correctly [Z, C, Y, X] data) =
        Except.ok
          ({ images := Z * C
             channels := C
             slices := Z
             frames := 1
             hyperstack := true
             mode := "composite" }, data)) ∧
    Except.map SavedTiff.desc (save_tiff_correctly [12, 3, 400, 400] []) =
      Except.ok
        { images := 36
          channels := 3
          slices := 12
          frames := 1
          hyperstack := true
          mode := "composite" } :=
  ⟨fun _ _ _ _ _ => rfl, rfl⟩

/-- Claim C9 counterexample: on a rank-5 input the writer raises no error
at all — there is no rank check in `save_tiff_correctly` — so inputs of
rank outside `{3, 4}` are not rejected before the write. -/
theorem writer_rank5_no_error_cex :
    save_tiff_correctly [2, 2, 2, 2, 2] [] =
      Except.ok
        { outShape := [2, 2, 2, 2, 2]
          outData := []
          photometric := "minisblack"
          axes := "TZCYXS"
          desc :=
            { images := 4
              channels := 2
              slices := 2
              frames := 1
              hyperstack := true
              mode := "composite" } } :=
  rfl

/-- Claim C9 amended: the writer performs no rank validation.  Every
input of rank at least 3 — including rank 5 and above — is accepted
without error (in particular ranks 3 and 4 never raise), and an input of
rank below 3 fails only with an index error while the description is
formatted, not with an unsupported-rank error before the write. -/
theorem writer_has_no_rank_check (shape : Shape) (data : List Int) :
    (3 ≤ shape.length → (save_tiff_correctly shape data).isOk = true) ∧
    (shape.length < 3 →
      save_tiff_correctly shape data =
        Except.error "IndexError: tuple index out of range") := by
  constructor
  · intro h3
    match shape, h3 with
    | a :: b :: c :: rest, _ =>
      unfold save_tiff_correctly
      dsimp only
      by_cases h4 : (a :: b :: c :: rest).length = 4
      · rw [if_pos h4]
        rfl
      · rw [if_neg h4]
        rfl
  · intro hlt
    match shape, hlt with
    | [], _ => rfl
    | [a], _ => rfl
    | [a, b], _ => rfl

/-- Claim C9 amended witness: the rank-5 shape `[3, 4, 5, 6, 7]` is
accepted by the writer without error. -/
theorem writer_has_no_rank_check_witness :
    3 ≤ ([3, 4, 5, 6, 7] : Shape).length ∧
    (save_tiff_correctly [3, 4, 5, 6, 7] []).isOk = true :=
  ⟨by decide, (writer_has_no_rank_check [3, 4, 5, 6, 7] []).1 (by decide)⟩

/-- Claim C10: `crop_3d_image` never mutates its input.  Whenever the
call succeeds, the input array cell comes back exactly as it went in —
shape and every element — while the cropped result is a freshly gathered
array. -/
theorem crop_preserves_input (v : Vol) (cropSize : Nat × Nat) (ry rx : Nat)
    (out : Vol × Vol)
    (hok : crop_3d_image_exec v cropSize ry rx = Except.ok out) :
    out.1 = v := by
  unfold crop_3d_image_exec at hok
  cases hplan : crop_3d_image_plan v.shape cropSize ry rx with
  | error e =>
    rw [hplan] at hok
    exact absurd hok (by simp)
  | ok b =>
    rw [hplan] at hok
    dsimp only at hok
    split at hok
    · injection hok with h
      rw [← h]
    · injection hok with h
      rw [← h]

/-- Claim C10 witness: cropping the `(10, 1, 1)` volume of ones with crop
size `(1, 1)` succeeds and leaves the input volume unchanged. -/
theorem crop_preserves_input_witness :
    ((⟨[10, 1, 1], List.replicate 10 1⟩ : Vol),
      (⟨[10, 1, 1], List.replicate 10 1⟩ : Vol)).1 =
      (⟨[10, 1, 1], List.replicate 10 1⟩ : Vol) :=
  crop_preserves_input ⟨[10, 1, 1], List.replicate 10 1⟩ (1, 1) 0 0
    (⟨[10, 1, 1], List.replicate 10 1⟩, ⟨[10, 1, 1], List.replicate 10 1⟩)
    rfl

end CropTiffs
